import Mathlib

/-!
Verification of the browser-automation wrapper (`browser_tools.py`) and the
chat orchestrator (`chainlit_browser.py`) of this repository.

Python strings are embedded as `List Char` (ASCII-level model: `str.lower`,
`str.split`, `str.strip`, whitespace and case predicates are modelled on the
ASCII range, which covers every literal the code manipulates).  Driver calls
(Playwright) are recorded in an explicit trace; their outcomes are supplied by
environment parameters, since the driver is an external collaborator.
-/

namespace JRGPT

/-- Convert a Lean string literal to the `List Char` model of Python strings. -/
def pyS (s : String) : List Char := s.toList

/-- ASCII uppercase test (model of the uppercase range relevant to
Python `str.lower`). -/
def isUpperAscii (c : Char) : Bool := decide (65 ≤ c.toNat ∧ c.toNat ≤ 90)

/-- Model of Python `str.lower` on one character (ASCII range). -/
def pyLowerChar (c : Char) : Char :=
  if 65 ≤ c.toNat ∧ c.toNat ≤ 90 then Char.ofNat (c.toNat + 32) else c

/-- Model of Python `str.lower`. -/
def pyLower (s : List Char) : List Char := s.map pyLowerChar

/-- Index of the first occurrence of `sep` in a list, if any
(the search Python `str.find` / `in` / `split` perform). -/
def findSub (sep : List Char) : List Char → Option Nat
  | [] => if sep.isEmpty then some 0 else none
  | c :: t =>
    if sep.isPrefixOf (c :: t) then some 0
    else (findSub sep t).map (· + 1)

/-- Model of Python `sub in s` (substring containment). -/
def pyContains (s sub : List Char) : Bool := (findSub sub s).isSome

/-- Model of Python `s.split(sep, 1)`: the part before the first occurrence of
`sep` and, when `sep` occurs, the part after it. -/
def splitOnce (s sep : List Char) : List Char × Option (List Char) :=
  match findSub sep s with
  | none => (s, none)
  | some i => (s.take i, some (s.drop (i + sep.length)))

/-- Model of Python `s.split()` (split on whitespace runs, dropping empties);
`acc` holds the current word reversed. -/
def wsSplitAux : List Char → List Char → List (List Char)
  | [], acc => if acc.isEmpty then [] else [acc.reverse]
  | c :: t, acc =>
    if c.isWhitespace then
      if acc.isEmpty then wsSplitAux t [] else acc.reverse :: wsSplitAux t []
    else wsSplitAux t (c :: acc)

/-- Model of Python `s.split()`. -/
def pySplitWs (s : List Char) : List (List Char) := wsSplitAux s []

/-- Model of Python `s.strip(chars)`: remove leading and trailing characters
belonging to `set`. -/
def pyStrip (s : List Char) (set : List Char) : List Char :=
  ((s.dropWhile set.contains).reverse.dropWhile set.contains).reverse

/-- Model of Python `s.strip()` (strip whitespace). -/
def pyStripWs (s : List Char) : List Char :=
  ((s.dropWhile Char.isWhitespace).reverse.dropWhile Char.isWhitespace).reverse

/-- The character set of `strip('"`\'., ')` in `chainlit_browser.py`:
double quote, backtick, single quote, period, comma, space. -/
def stripSet : List Char := ['"', Char.ofNat 96, Char.ofNat 39, '.', ',', ' ']

section UrlParse

/-- Characters Python `urllib.parse` accepts inside a URL scheme
(letters, digits, plus, minus, dot). -/
def schemeChar (c : Char) : Bool := c.isAlpha || c.isDigit || c == '+' || c == '-' || c == '.'

/-- Modelled from Python `urllib.parse.urlsplit` scheme handling: if the text
before the first colon is non-empty, starts with an ASCII letter and consists
of scheme characters, it is the scheme (lower-cased); the remainder follows the
colon.  Otherwise there is no scheme. -/
def pySchemeSplit (url : List Char) : List Char × List Char :=
  match findSub [':'] url with
  | none => ([], url)
  | some i =>
    let pre := url.take i
    if 0 < i ∧ (url.headD ' ').isAlpha ∧ pre.all schemeChar then
      (pyLower pre, url.drop (i + 1))
    else ([], url)

/-- Whether the URL carries a scheme in the sense of `urllib.parse`. -/
def hasScheme (url : List Char) : Bool := !(pySchemeSplit url).1.isEmpty

/-- Modelled from Python `urllib.parse` netloc handling: when the remainder
after the scheme starts with `//`, the netloc extends to the next `/`, `?` or
`#`.  `none` models the `ValueError` urlsplit raises on an unbalanced square
bracket in the netloc. -/
def pyNetloc (afterScheme : List Char) : Option (List Char) :=
  if (pyS "//").isPrefixOf afterScheme then
    let netloc := (afterScheme.drop 2).takeWhile fun c => !(c == '/' || c == '?' || c == '#')
    if (netloc.contains '[' && !netloc.contains ']')
        || (netloc.contains ']' && !netloc.contains '[') then none
    else some netloc
  else some []

/-- `BrowserTools.validate_url`: parse the URL and require both a scheme and a
netloc; any parsing exception yields `False`. -/
def validate_url (url : List Char) : Bool :=
  let (scheme, rest) := pySchemeSplit url
  match pyNetloc rest with
  | none => false
  | some netloc => !scheme.isEmpty && !netloc.isEmpty

end UrlParse

/-- The URL formatting step of `BrowserTools.navigate`: prefix `https://`
unless the URL already starts with `http://` or `https://`. -/
def formatUrl (url : List Char) : List Char :=
  if (pyS "http://").isPrefixOf url || (pyS "https://").isPrefixOf url then url
  else pyS "https://" ++ url

example : validate_url (pyS "https://example.com") = true := by decide
example : validate_url (pyS "https://") = false := by decide
example : validate_url (pyS "https:///foo") = false := by decide
example : validate_url (pyS "https://not a url") = true := by decide
example : hasScheme (pyS "ftp://example.com") = true := by decide
example : hasScheme (pyS "example.com") = false := by decide
example : formatUrl (pyS "ftp://x.com") = pyS "https://ftp://x.com" := by decide
example : pySplitWs (pyS "  foo bar ") = [pyS "foo", pyS "bar"] := by decide
example : pyStrip (pyS ". example.com, ") stripSet = pyS "example.com" := by decide
example : splitOnce (pyS "go navigate to x") (pyS "navigate to") = (pyS "go ", some (pyS " x")) := by decide
example : pyLower (pyS "AbC:") = pyS "abc:" := by decide

/-- `pyLowerChar` never yields an ASCII uppercase character. -/
theorem pyLowerChar_not_upper (c : Char) : isUpperAscii (pyLowerChar c) = false := by
  unfold pyLowerChar isUpperAscii
  split
  · next h =>
    have hv : Nat.isValidChar (c.toNat + 32) := by
      left; omega
    simp only [Char.ofNat, hv, dif_pos]
    have hr : (Char.ofNatAux (c.toNat + 32) hv).toNat = c.toNat + 32 := rfl
    simp only [hr, decide_eq_false_iff_not]
    omega
  · next h =>
    simp only [decide_eq_false_iff_not]
    omega

/-! ## Browser wrapper state machine (`browser_tools.py`)

The wrapper state records which of `self.browser`, `self.page` and
`self._playwright` are set (each is either `None` or a live handle, so a
`Bool` captures Python truthiness), plus `self.default_timeout`.  Every
operation returns its Python result (`Except` models raising), the successor
state, and the list of driver calls it issued.  The trace records the calls
the wrapper completed or issued; outcomes of issued calls (`goto`, `click`,
`fill`, the page reads) are supplied by environment parameters, the driver
being external.  Console logging and the `page.on` handler registrations are
not modelled. -/

/-- The exception classes of `browser_tools.py`; `otherError` covers
exceptions of unrelated types (e.g. one escaping `playwright.stop`). -/
inductive PyErr
  | browserError (msg : List Char)
  | navigationError (msg : List Char)
  | contentExtractionError (msg : List Char)
  | otherError (msg : List Char)
deriving DecidableEq, Repr

/-- Python `str(e)`: the human-readable cause string of an exception. -/
def PyErr.str : PyErr → List Char
  | .browserError m => m
  | .navigationError m => m
  | .contentExtractionError m => m
  | .otherError m => m

/-- The driver (Playwright) calls the wrapper can issue. -/
inductive DriverCall
  | startPlaywright
  | launchBrowser
  | newPage
  | setDefaultTimeout (t : Nat)
  | goto (url : List Char) (timeout : Nat)
  | waitForLoadState
  | pageRead
  | pageClick (sel : List Char) (timeout : Nat)
  | pageFill (sel val : List Char) (timeout : Nat)
  | closeBrowser
  | stopPlaywright
deriving DecidableEq, Repr

/-- The mutable fields of a `BrowserTools` object. -/
structure BTState where
  browser : Bool
  page : Bool
  playwright : Bool
  default_timeout : Nat
deriving DecidableEq, Repr

/-- `BrowserTools.__init__`: everything unset, keeping the given timeout. -/
def BrowserTools_init (default_timeout : Nat) : BTState :=
  ⟨false, false, false, default_timeout⟩

/-- A fresh wrapper with the default `default_timeout=30000`. -/
def initState : BTState := BrowserTools_init 30000

/-- Decidable equality for `Except` (not provided by this library
snapshot). -/
instance instDecEqExcept {ε α : Type} [DecidableEq ε] [DecidableEq α] :
    DecidableEq (Except ε α) := fun x y =>
  match x, y with
  | .ok a, .ok b => decidable_of_iff (a = b) (by simp)
  | .error a, .error b => decidable_of_iff (a = b) (by simp)
  | .ok _, .error _ => isFalse (by intro h; cases h)
  | .error _, .ok _ => isFalse (by intro h; cases h)

/-- Result of one wrapper operation: Python return value or raised exception,
successor state, and issued driver calls. -/
structure Op (α : Type) where
  res : Except PyErr α
  state : BTState
  trace : List DriverCall
deriving DecidableEq, Repr

/-- Which of the awaited steps of `setup` fails, if any (outcomes of the
external driver calls). -/
inductive SetupEnv
  | ok
  | failStart (msg : List Char)
  | failLaunch (msg : List Char)
  | failNewPage (msg : List Char)
  | failSetTimeout (msg : List Char)
deriving DecidableEq, Repr

/-- `BrowserTools.setup`: initialize playwright, browser and page unless a
browser is already present.  On an exception the except-clause stops a set
`_playwright` and raises `BrowserError`; note that a browser or page already
assigned before the failing step stays assigned. -/
def setup (e : SetupEnv) (s : BTState) : Op Unit :=
  if s.browser then ⟨.ok (), s, []⟩
  else
    match e with
    | .ok =>
        ⟨.ok (), { s with browser := true, page := true, playwright := true },
          [.startPlaywright, .launchBrowser, .newPage, .setDefaultTimeout s.default_timeout]⟩
    | .failStart m =>
        -- `start()` raised before assigning, so `_playwright` keeps its prior
        -- value and the except-clause stops it only when it was set.
        if s.playwright then
          ⟨.error (.browserError (pyS "Failed to initialize browser: " ++ m)),
            { s with playwright := false }, [.stopPlaywright]⟩
        else
          ⟨.error (.browserError (pyS "Failed to initialize browser: " ++ m)), s, []⟩
    | .failLaunch m =>
        ⟨.error (.browserError (pyS "Failed to initialize browser: " ++ m)),
          { s with playwright := false }, [.startPlaywright, .stopPlaywright]⟩
    | .failNewPage m =>
        ⟨.error (.browserError (pyS "Failed to initialize browser: " ++ m)),
          { s with browser := true, playwright := false },
          [.startPlaywright, .launchBrowser, .stopPlaywright]⟩
    | .failSetTimeout m =>
        ⟨.error (.browserError (pyS "Failed to initialize browser: " ++ m)),
          { s with browser := true, page := true, playwright := false },
          [.startPlaywright, .launchBrowser, .newPage, .stopPlaywright]⟩

/-- Outcomes of the two awaited calls inside `cleanup`: whether
`browser.close()` raises (swallowed) and whether `playwright.stop()` raises
(propagated, since the finally-block does not catch). -/
structure CleanupEnv where
  closeFails : Bool
  stopFails : Option (List Char)
deriving DecidableEq, Repr

/-- `BrowserTools.cleanup`: when a browser is present, close it (exceptions
from `close` are swallowed, so `closeFails` is observably irrelevant), then
unconditionally clear `browser` and `page` in the finally-block and stop a set
`_playwright`.  An exception from `stop` propagates and leaves `_playwright`
set.  Without a browser the call does nothing. -/
def cleanup (e : CleanupEnv) (s : BTState) : Op Unit :=
  if s.browser then
    let s1 : BTState := { s with browser := false, page := false }
    if s.playwright then
      match e.stopFails with
      | none => ⟨.ok (), { s1 with playwright := false }, [.closeBrowser, .stopPlaywright]⟩
      | some m => ⟨.error (.otherError m), s1, [.closeBrowser, .stopPlaywright]⟩
    else ⟨.ok (), s1, [.closeBrowser]⟩
  else ⟨.ok (), s, []⟩

/-- Python `timeout or self.default_timeout` (`0` is falsy). -/
def effTimeout (timeout : Option Nat) (s : BTState) : Nat :=
  match timeout with
  | some t => if t = 0 then s.default_timeout else t
  | none => s.default_timeout

/-- Decimal rendering of a number, as Python string interpolation does. -/
def natStr (n : Nat) : List Char := (toString n).toList

/-- A single-quote character (used in Python `AttributeError` messages). -/
def sq : List Char := [Char.ofNat 39]

/-- The `AttributeError` message Python produces for an attribute access on
`None`. -/
def noneAttrMsg (attr : String) : List Char :=
  sq ++ pyS "NoneType" ++ sq ++ pyS " object has no attribute " ++ sq ++ pyS attr ++ sq

/-- Outcome of the driver call `page.goto`. -/
inductive GotoOutcome
  | timeout
  | err (msg : List Char)
  | noResponse
  | response (status : Nat)
deriving DecidableEq, Repr

/-- Outcome of a single awaited driver call (`wait_for_load_state`,
`page.click`, `page.fill`). -/
inductive OpOutcome
  | ok
  | timeout
  | err (msg : List Char)
deriving DecidableEq, Repr

/-- Environment of one `navigate` call: outcomes of the possible `setup` and
of `goto` and `wait_for_load_state`. -/
structure NavEnv where
  setupEnv : SetupEnv
  goto : GotoOutcome
  wait : OpOutcome
deriving DecidableEq, Repr

/-- The body of `navigate` after the optional `setup` call: prefix and
validate the URL, then issue `goto`; a missing response, a status of 400 or
more, and every exception become a `NavigationError` (the inner
`NavigationError` raised for a missing response or a bad status is itself
caught by the except-clause and wrapped a second time).  The trace is relative
to the calls issued here. -/
def navRest (url : List Char) (timeout : Option Nat) (e : NavEnv) (s1 : BTState) :
    Op (List Char) :=
  let u := formatUrl url
  if !validate_url u then
    ⟨.error (.navigationError (pyS "Invalid URL format: " ++ u)), s1, []⟩
  else if !s1.page then
    -- `setup` was a no-op (browser set, page not): `self.page` is `None`,
    -- the attribute access raises and the except-clause wraps it.
    ⟨.error (.navigationError
        (pyS "Failed to navigate to " ++ u ++ pyS ": " ++ noneAttrMsg "goto")), s1, []⟩
  else
    let tmo := effTimeout timeout s1
    match e.goto with
    | .timeout =>
        ⟨.error (.navigationError (pyS "Navigation to " ++ u ++ pyS " timed out")),
          s1, [.goto u tmo]⟩
    | .err m =>
        ⟨.error (.navigationError (pyS "Failed to navigate to " ++ u ++ pyS ": " ++ m)),
          s1, [.goto u tmo]⟩
    | .noResponse =>
        ⟨.error (.navigationError (pyS "Failed to navigate to " ++ u ++ pyS ": "
            ++ (pyS "Failed to navigate to " ++ u ++ pyS ": No response"))),
          s1, [.goto u tmo]⟩
    | .response status =>
        if 400 ≤ status then
          ⟨.error (.navigationError (pyS "Failed to navigate to " ++ u ++ pyS ": "
              ++ (pyS "Failed to navigate to " ++ u ++ pyS ": Status " ++ natStr status))),
            s1, [.goto u tmo]⟩
        else
          match e.wait with
          | .ok =>
              ⟨.ok (pyS "Successfully navigated to " ++ u),
                s1, [.goto u tmo, .waitForLoadState]⟩
          | .timeout =>
              ⟨.error (.navigationError (pyS "Navigation to " ++ u ++ pyS " timed out")),
                s1, [.goto u tmo, .waitForLoadState]⟩
          | .err m =>
              ⟨.error (.navigationError (pyS "Failed to navigate to " ++ u ++ pyS ": " ++ m)),
                s1, [.goto u tmo, .waitForLoadState]⟩

/-- `BrowserTools.navigate`: run `setup` when no page is set (a raised
`BrowserError` propagates untouched, the call being outside the try-block),
then perform `navRest` from the resulting state. -/
def navigate (url : List Char) (timeout : Option Nat) (e : NavEnv) (s : BTState) :
    Op (List Char) :=
  let step : Op Unit := if s.page then ⟨.ok (), s, []⟩ else setup e.setupEnv s
  match step.res with
  | .error er => ⟨.error er, step.state, step.trace⟩
  | .ok _ =>
      let o := navRest url timeout e step.state
      ⟨o.res, o.state, step.trace ++ o.trace⟩

/-- `BrowserTools.click`: no page check, no setup; with `self.page = None` the
attribute access raises `AttributeError` inside the try-block and the
except-clause wraps it as a generic `BrowserError`. -/
def click (sel : List Char) (timeout : Option Nat) (e : OpOutcome) (s : BTState) :
    Op (List Char) :=
  if !s.page then
    ⟨.error (.browserError (pyS "Click operation failed: " ++ noneAttrMsg "click")), s, []⟩
  else
    let t := effTimeout timeout s
    match e with
    | .ok => ⟨.ok (pyS "Clicked element: " ++ sel), s, [.pageClick sel t]⟩
    | .timeout =>
        ⟨.error (.browserError (pyS "Timeout waiting for element: " ++ sel)),
          s, [.pageClick sel t]⟩
    | .err m =>
        ⟨.error (.browserError (pyS "Click operation failed: " ++ m)), s, [.pageClick sel t]⟩

/-- `BrowserTools.fill_form`: same shape as `click` for `page.fill`. -/
def fill_form (sel val : List Char) (timeout : Option Nat) (e : OpOutcome) (s : BTState) :
    Op (List Char) :=
  if !s.page then
    ⟨.error (.browserError (pyS "Form fill operation failed: " ++ noneAttrMsg "fill")), s, []⟩
  else
    let t := effTimeout timeout s
    match e with
    | .ok => ⟨.ok (pyS "Filled form field " ++ sel), s, [.pageFill sel val t]⟩
    | .timeout =>
        ⟨.error (.browserError (pyS "Timeout waiting for form field: " ++ sel)),
          s, [.pageFill sel val t]⟩
    | .err m =>
        ⟨.error (.browserError (pyS "Form fill operation failed: " ++ m)),
          s, [.pageFill sel val t]⟩

/-! ## Page content and `extract_content` -/

/-- An anchor element of the current page that carries an `href` (the `href`
is the browser-resolved absolute URL). -/
structure PageLink where
  text : List Char
  href : List Char
deriving DecidableEq, Repr

/-- The observable content of the current page, as the embedded JavaScript of
`extract_content` reads it. -/
structure PageContent where
  title : List Char
  url : List Char
  body : List Char
  articleText : Option (List Char)
  contentText : Option (List Char)
  links : List PageLink
deriving DecidableEq, Repr

/-- The main-content heuristic of the embedded JavaScript: an
`article`/`main`/`[role=main]` element first, then a `content` element, then
the whole body. -/
def mainContentJs (pc : PageContent) : List Char :=
  match pc.articleText with
  | some t => t
  | none =>
    match pc.contentText with
    | some t => t
    | none => pc.body

/-- The links extraction of the embedded JavaScript: every `a[href]` whose
inner text is non-blank after trimming and whose `href` starts with `http`. -/
def linksJs (pc : PageContent) : List PageLink :=
  pc.links.filter fun l => !(pyStripWs l.text).isEmpty && (pyS "http").isPrefixOf l.href

/-- A value of the dictionary `extract_content` returns. -/
inductive ExtractVal
  | s (v : List Char)
  | links (v : List PageLink)
deriving DecidableEq, Repr

/-- Outcome of `page.inner_text` for one custom selector. -/
inductive SelOutcome
  | ok (text : List Char)
  | fail (msg : List Char)
deriving DecidableEq, Repr

/-- Environment of `extract_content`: `some msg` when one of the page reads of
the default extraction raises. -/
structure ExtractEnv where
  evalFails : Option (List Char)
deriving DecidableEq, Repr

/-- `BrowserTools.extract_content`: fail with `BrowserError` when no page is
set; otherwise build the default dictionary (title, url, text, main_content,
links) and append one entry per custom selector, a failing `inner_text` being
rendered in place.  The association list models dictionary insertion order for
fresh keys.  Any exception of the default extraction becomes a
`ContentExtractionError`. -/
def extract_content (pc : PageContent) (e : ExtractEnv)
    (selectors : Option (List (String × SelOutcome))) (s : BTState) :
    Op (List (String × ExtractVal)) :=
  if !s.page then ⟨.error (.browserError (pyS "Browser not initialized")), s, []⟩
  else
    match e.evalFails with
    | some m =>
        ⟨.error (.contentExtractionError (pyS "Failed to extract content: " ++ m)),
          s, [.pageRead]⟩
    | none =>
        let base : List (String × ExtractVal) :=
          [("title", .s pc.title), ("url", .s pc.url), ("text", .s pc.body),
           ("main_content", .s (mainContentJs pc)), ("links", .links (linksJs pc))]
        let extra : List (String × ExtractVal) :=
          match selectors with
          | none => []
          | some sels =>
              sels.map fun kv =>
                match kv.2 with
                | .ok t => (kv.1, .s t)
                | .fail m => (kv.1, .s (pyS "Failed to extract: " ++ m))
        ⟨.ok (base ++ extra), s, [.pageRead]⟩

/-! ## Chat orchestrator (`chainlit_browser.py`)

The chat-UI operations (`msg.send`, `msg.stream_token`, `msg.update`) belong
to the external chat framework and are modelled as infallible; the tokens
streamed into the visible message are collected in order. -/

/-- `get_prompt`: prior responses joined in front of the instruction. -/
def get_prompt (instruction : List Char) (history : List (List Char)) : List Char :=
  if history.isEmpty then instruction
  else pyS "Previous conversation: " ++ history.flatten ++ pyS "\n\n" ++ instruction

/-- One LLM call as the orchestrator observes it: the tokens the model
streamed and, when the API call or the iteration raises midway, the exception
message. -/
structure LlmEnv where
  tokens : List (List Char)
  failure : Option (List Char)
deriving DecidableEq, Repr

/-- The apology `generate_response` yields when the LLM call raises. -/
def apologyMsg (m : List Char) : List Char :=
  pyS "\nI apologize, but I encountered an error: " ++ m ++ pyS "\nPlease try again."

/-- `generate_response`: yield the model tokens; an exception is caught inside
the generator and turned into one final apology token, so the generator never
raises to its caller. -/
def generate_response (e : LlmEnv) : List (List Char) :=
  match e.failure with
  | none => e.tokens
  | some m => e.tokens ++ [apologyMsg m]

/-- The trigger phrases of the dispatch if-chain, in the order it tests
them. -/
def navTrigger : List Char := pyS "navigate to"

/-- Trigger of the click branch. -/
def clickTrigger : List Char := pyS "click"

/-- Trigger of the fill branch. -/
def fillTrigger : List Char := pyS "fill"

/-- Trigger of the extract branch. -/
def extractTrigger : List Char := pyS "extract"

/-- All trigger phrases in if-chain order. -/
def triggers : List (List Char) := [navTrigger, clickTrigger, fillTrigger, extractTrigger]

/-- A wrapper invocation the orchestrator performed, with the arguments it
passed. -/
inductive WrapperCall
  | nav (url : List Char)
  | clickOn (sel : List Char)
  | fillWith (sel val : List Char)
  | extractAll
deriving DecidableEq, Repr

/-- Environment of the at most one wrapper call of one message: driver-call
outcomes for each possible action and the current page content. -/
structure WrapperEnv where
  nav : NavEnv
  clickOut : OpOutcome
  fillOut : OpOutcome
  extractFail : Option (List Char)
  pc : PageContent
deriving DecidableEq, Repr

/-- The error token the except-clause of the action phase streams. -/
def errTok (e : PyErr) : List Char :=
  pyS "\n\nError performing browser action: " ++ e.str

/-- Coarse model of Python `str(content)` for the extracted dictionary: some
rendering of its entries (only the chat display uses it; no claim depends on
its exact shape). -/
def showVal : ExtractVal → List Char
  | .s v => v
  | .links ls => (ls.map fun l => l.text ++ pyS " " ++ l.href).flatten

/-- Rendering of the whole dictionary for the chat display. -/
def showContent (c : List (String × ExtractVal)) : List Char :=
  (c.map fun kv => pyS kv.1 ++ pyS ": " ++ showVal kv.2).flatten

/-- Result of the browser-action phase of `on_message` (its second try-block):
tokens streamed during the phase, the wrapper calls performed, the exception
its except-clause caught (if any), the wrapper state, the driver trace, and
the history after the phase. -/
structure ActionOut where
  streamed : List (List Char)
  executed : List WrapperCall
  caught : Option PyErr
  state : BTState
  trace : List DriverCall
  history : List (List Char)
deriving Repr

/-- The browser-action phase of `on_message`: scan the lower-cased response
through the if-chain, perform at most one wrapper call, stream its result;
`history.append(response)` runs after the chain inside the try-block, so a
raised exception skips it and is rendered by the except-clause as an error
token instead. -/
def onMsgAction (response : List Char) (we : WrapperEnv) (s : BTState)
    (history : List (List Char)) : ActionOut :=
  let r := pyLower response
  if pyContains r navTrigger then
    match (splitOnce r navTrigger).2 with
    | none =>
        -- models the guard `len(parts) > 1` (unreachable when the trigger occurs)
        ⟨[], [], none, s, [], history ++ [response]⟩
    | some after =>
        match pySplitWs after with
        | [] =>
            -- `parts[1].split()[0]` raises IndexError, caught by the except-clause
            let er : PyErr := .otherError (pyS "list index out of range")
            ⟨[errTok er], [], some er, s, [], history⟩
        | w :: _ =>
            let url0 := pyStrip w stripSet
            let url :=
              if (pyS "http://").isPrefixOf url0 || (pyS "https://").isPrefixOf url0
              then url0 else pyS "https://" ++ url0
            let o := navigate url none we.nav s
            match o.res with
            | .ok result =>
                ⟨[pyS "\n\nNavigated to " ++ url ++ pyS ". Result: " ++ result],
                  [.nav url], none, o.state, o.trace, history ++ [response]⟩
            | .error er =>
                ⟨[errTok er], [.nav url], some er, o.state, o.trace, history⟩
  else if pyContains r clickTrigger then
    match (splitOnce r clickTrigger).2 with
    | none => ⟨[], [], none, s, [], history ++ [response]⟩
    | some after =>
        match pySplitWs after with
        | [] =>
            let er : PyErr := .otherError (pyS "list index out of range")
            ⟨[errTok er], [], some er, s, [], history⟩
        | w :: _ =>
            let sel := pyStrip w stripSet
            let o := click sel none we.clickOut s
            match o.res with
            | .ok result =>
                ⟨[pyS "\n\nClicked " ++ sel ++ pyS ". Result: " ++ result],
                  [.clickOn sel], none, o.state, o.trace, history ++ [response]⟩
            | .error er =>
                ⟨[errTok er], [.clickOn sel], some er, o.state, o.trace, history⟩
  else if pyContains r fillTrigger then
    match (splitOnce r fillTrigger).2 with
    | none => ⟨[], [], none, s, [], history ++ [response]⟩
    | some after =>
        match (splitOnce after (pyS "with")).2 with
        | none =>
            -- no `with`: `len(parts) == 2` fails, no action
            ⟨[], [], none, s, [], history ++ [response]⟩
        | some valPart =>
            let sel := pyStrip (splitOnce after (pyS "with")).1 stripSet
            let v := pyStrip valPart stripSet
            let o := fill_form sel v none we.fillOut s
            match o.res with
            | .ok result =>
                ⟨[pyS "\n\nFilled " ++ sel ++ pyS " with value. Result: " ++ result],
                  [.fillWith sel v], none, o.state, o.trace, history ++ [response]⟩
            | .error er =>
                ⟨[errTok er], [.fillWith sel v], some er, o.state, o.trace, history⟩
  else if pyContains r extractTrigger then
    let o := extract_content we.pc ⟨we.extractFail⟩ none s
    match o.res with
    | .ok content =>
        ⟨[pyS "\n\nExtracted content: " ++ showContent content],
          [.extractAll], none, o.state, o.trace, history ++ [response]⟩
    | .error er =>
        ⟨[errTok er], [.extractAll], some er, o.state, o.trace, history⟩
  else
    ⟨[], [], none, s, [], history ++ [response]⟩

/-- Result of one `on_message` invocation. -/
structure MsgResult where
  streamed : List (List Char)
  history : List (List Char)
  state : BTState
  trace : List DriverCall
  executed : List WrapperCall
  actionErr : Option PyErr
  escaped : Option PyErr
deriving Repr

/-- `on_message`: build the prompt, stream the LLM response (non-empty tokens
only), bail out when the full response is blank, then run the browser-action
phase.  `escaped` records an exception leaving the handler; both try-blocks
catch every exception and the chat-UI calls are modelled as infallible, so it
is always `none`. -/
def on_message (userMsg : List Char) (llm : LlmEnv) (we : WrapperEnv)
    (s : BTState) (history : List (List Char)) : MsgResult :=
  let _prompt := get_prompt userMsg history
  let toks := (generate_response llm).filter fun w => !w.isEmpty
  let response := toks.flatten
  if (pyStripWs response).isEmpty then
    ⟨toks, history, s, [], [], none, none⟩
  else
    let a := onMsgAction response we s history
    ⟨toks ++ a.streamed, a.history, a.state, a.trace, a.executed, a.caught, none⟩

/-! ## Call sequences and the session lifecycle invariant -/

/-- One external call into the wrapper, bundled with the environment resolving
its driver calls. -/
inductive ApiCall
  | setupC (e : SetupEnv)
  | navigateC (url : List Char) (timeout : Option Nat) (e : NavEnv)
  | clickC (sel : List Char) (timeout : Option Nat) (e : OpOutcome)
  | fillC (sel val : List Char) (timeout : Option Nat) (e : OpOutcome)
  | extractC (pc : PageContent) (e : ExtractEnv) (sels : Option (List (String × SelOutcome)))
  | cleanupC (e : CleanupEnv)

/-- Successor state and issued driver calls of one call (the Python result is
dropped). -/
def step (s : BTState) : ApiCall → BTState × List DriverCall
  | .setupC e => ((setup e s).state, (setup e s).trace)
  | .navigateC url t e => ((navigate url t e s).state, (navigate url t e s).trace)
  | .clickC sel t e => ((click sel t e s).state, (click sel t e s).trace)
  | .fillC sel v t e => ((fill_form sel v t e s).state, (fill_form sel v t e s).trace)
  | .extractC pc e sels => ((extract_content pc e sels s).state, (extract_content pc e sels s).trace)
  | .cleanupC e => ((cleanup e s).state, (cleanup e s).trace)

/-- Run a list of calls, accumulating the driver trace. -/
def run (s : BTState) : List ApiCall → BTState × List DriverCall
  | [] => (s, [])
  | c :: cs =>
    let p := step s c
    let q := run p.1 cs
    (q.1, p.2 ++ q.2)

/-- Browser-launch events. -/
def isLaunch : DriverCall → Bool
  | .launchBrowser => true
  | _ => false

/-- Page-creation events. -/
def isNewPage : DriverCall → Bool
  | .newPage => true
  | _ => false

/-- Browser-close events (closing the browser also closes its page). -/
def isClose : DriverCall → Bool
  | .closeBrowser => true
  | _ => false

/-- `goto` events. -/
def isGoto : DriverCall → Bool
  | .goto _ _ => true
  | _ => false

/-- Number of browser launches in a trace. -/
def launches (tr : List DriverCall) : Nat := (tr.filter isLaunch).length

/-- Number of page creations in a trace. -/
def pagesMade (tr : List DriverCall) : Nat := (tr.filter isNewPage).length

/-- Number of browser closes in a trace. -/
def closes (tr : List DriverCall) : Nat := (tr.filter isClose).length

/-- Number of `goto` calls in a trace. -/
def gotos (tr : List DriverCall) : Nat := (tr.filter isGoto).length

/-- 1 when a browser handle is held. -/
def bNum (s : BTState) : Nat := if s.browser then 1 else 0

/-- 1 when a page handle is held. -/
def pNum (s : BTState) : Nat := if s.page then 1 else 0

/-- A wrapper state with a live browser and page (a completed `setup`). -/
def pageReady : BTState := ⟨true, true, true, 30000⟩

/-- A small concrete page. -/
def samplePage : PageContent :=
  ⟨pyS "Title", pyS "https://e.example", pyS "Hello", none, none,
    [⟨pyS "link", pyS "https://e.example/a"⟩]⟩

/-- A page whose single outbound link has an empty anchor text. -/
def emptyTextLinkPage : PageContent :=
  ⟨pyS "T", pyS "https://x.example", pyS "body", none, none,
    [⟨[], pyS "http://out.example/a"⟩]⟩

/-- A wrapper environment in which every driver call succeeds. -/
def sampleWe : WrapperEnv := ⟨⟨.ok, .response 200, .ok⟩, .ok, .ok, none, samplePage⟩

/-- A wrapper environment in which `page.click` raises. -/
def sampleWeErr : WrapperEnv :=
  ⟨⟨.ok, .response 200, .ok⟩, .err (pyS "no element"), .ok, none, samplePage⟩

/-- An LLM call that raises immediately, before yielding a token. -/
def llmFail : LlmEnv := ⟨[], some (pyS "boom")⟩

/-- An LLM call answering with one click command. -/
def llmClick : LlmEnv := ⟨[pyS "click #b"], none⟩

/-- Written after the words of the spec, for comparison with `linksJs`: the
outbound links of a page are all its links whose browser-resolved `href` is an
absolute `http(s)` URL, with no condition on the anchor text. -/
def specOutboundLinks (pc : PageContent) : List PageLink :=
  pc.links.filter fun l => (pyS "http").isPrefixOf l.href

/-- The trigger phrase of the branch that performs a given wrapper call. -/
def callTrigger : WrapperCall → List Char
  | .nav _ => navTrigger
  | .clickOn _ => clickTrigger
  | .fillWith _ _ => fillTrigger
  | .extractAll => extractTrigger

/-- No ASCII uppercase character occurs in the string. -/
def noUpper (s : List Char) : Prop := ∀ c ∈ s, isUpperAscii c = false

/-- The arguments of a wrapper call carry no ASCII uppercase character. -/
def callArgsNoUpper : WrapperCall → Prop
  | .nav url => noUpper url
  | .clickOn sel => noUpper sel
  | .fillWith sel v => noUpper sel ∧ noUpper v
  | .extractAll => True

/-- Driver calls that neither create nor close a browser or page. -/
def lifecycleFree (seg : List DriverCall) : Prop :=
  ∀ c ∈ seg, isLaunch c = false ∧ isNewPage c = false ∧ isClose c = false

/-- Relation between a wrapper state, the driver-call segment one operation
emits, and the successor state: strong enough to push the session lifecycle
invariant through that operation. -/
structure SegOK (s : BTState) (seg : List DriverCall) (s' : BTState) : Prop where
  lb : launches seg + bNum s = closes seg + bNum s'
  pb : pNum s + pagesMade seg ≤ closes seg + pNum s'
  pImp : s'.page = true → s'.browser = true
  lbPre : ∀ m, bNum s + launches (seg.take m) ≤ closes (seg.take m) + 1
  pbPre : ∀ m, pNum s + pagesMade (seg.take m) ≤ closes (seg.take m) + 1

/-- The session lifecycle invariant tying a reachable wrapper state to the
driver trace that produced it: launches and page creations balance against
closes so that at no point of the trace more than one browser or page is
outstanding. -/
structure Inv (s : BTState) (tr : List DriverCall) : Prop where
  lb : launches tr = closes tr + bNum s
  pb : pagesMade tr ≤ closes tr + pNum s
  pImp : s.page = true → s.browser = true
  pre : ∀ n, launches (tr.take n) ≤ closes (tr.take n) + 1 ∧
    pagesMade (tr.take n) ≤ closes (tr.take n) + 1

/-! ## Theorems -/

/-- A cleanup leaves no browser handle behind, whatever happened. -/
theorem cleanup_browser_false (e : CleanupEnv) (s : BTState) :
    (cleanup e s).state.browser = false := by
  unfold cleanup
  cases hb : s.browser
  · simp [hb]
  · cases hp : s.playwright
    · simp [hb, hp]
    · cases e.stopFails <;> simp [hb, hp]

/-- C5: calling `cleanup` immediately after `cleanup` is a no-op (the second
call changes nothing, issues no driver call and raises nothing), and `cleanup`
never propagates an error from closing the browser: whether `browser.close`
raises is invisible, and when `playwright.stop` does not raise the call always
returns normally. -/
theorem cleanup_cleanup_noop (s : BTState) (e₁ e₂ : CleanupEnv) (cf : Bool)
    (st : Option (List Char)) :
    cleanup e₂ (cleanup e₁ s).state = ⟨.ok (), (cleanup e₁ s).state, []⟩ ∧
    (cleanup ⟨cf, none⟩ s).res = .ok () ∧
    cleanup ⟨cf, st⟩ s = cleanup ⟨!cf, st⟩ s := by
  refine ⟨?_, ?_, ?_⟩
  · have hb := cleanup_browser_false e₁ s
    generalize (cleanup e₁ s).state = st at hb ⊢
    unfold cleanup
    simp [hb]
  · unfold cleanup
    cases s.browser
    · rfl
    · cases s.playwright <;> rfl
  · rfl

/-- C10: with no page set, `click` and `fill_form` do not run `setup` and do
not return a success message: each leaves the state untouched, issues no
driver call, and raises a `BrowserError` (the `AttributeError` from the
attribute access on `None` is wrapped by the except-clause), never any other
exception type. -/
theorem click_fill_no_page (sel val : List Char) (t₁ t₂ : Option Nat)
    (e₁ e₂ : OpOutcome) (s : BTState) (h : s.page = false) :
    click sel t₁ e₁ s =
      ⟨.error (.browserError (pyS "Click operation failed: " ++ noneAttrMsg "click")),
        s, []⟩ ∧
    fill_form sel val t₂ e₂ s =
      ⟨.error (.browserError (pyS "Form fill operation failed: " ++ noneAttrMsg "fill")),
        s, []⟩ := by
  unfold click fill_form
  rw [h]
  exact ⟨rfl, rfl⟩

/-- Witness for `click_fill_no_page` at a fresh wrapper and concrete
arguments. -/
theorem click_fill_no_page_witness :
    initState.page = false ∧
    click (pyS "#submit") none .ok initState =
      ⟨.error (.browserError (pyS "Click operation failed: " ++ noneAttrMsg "click")),
        initState, []⟩ :=
  ⟨rfl, (click_fill_no_page (pyS "#submit") (pyS "v") none none .ok .ok initState rfl).1⟩

/-- A URL beginning with `http://` carries the scheme `http`. -/
theorem hasScheme_http (t : List Char) : hasScheme (pyS "http://" ++ t) = true := rfl

/-- A URL beginning with `https://` carries the scheme `https`. -/
theorem hasScheme_https (t : List Char) : hasScheme (pyS "https://" ++ t) = true := rfl

/-- C3 (amended): `navigate` prefixes `https://` exactly when the URL does not
already begin with `http://` or `https://`.  A URL with no scheme at all is
therefore prefixed, but so is a URL with any other scheme, which is not left
unchanged. -/
theorem formatUrl_spec (url : List Char) :
    (hasScheme url = false → formatUrl url = pyS "https://" ++ url) ∧
    (((pyS "http://").isPrefixOf url || (pyS "https://").isPrefixOf url) = true →
      formatUrl url = url) := by
  constructor
  · intro h
    unfold formatUrl
    cases h1 : (pyS "http://").isPrefixOf url
    · cases h2 : (pyS "https://").isPrefixOf url
      · simp [h1, h2]
      · exfalso
        obtain ⟨t, rfl⟩ := List.isPrefixOf_iff_prefix.mp h2
        rw [hasScheme_https] at h
        simp at h
    · exfalso
      obtain ⟨t, rfl⟩ := List.isPrefixOf_iff_prefix.mp h1
      rw [hasScheme_http] at h
      simp at h
  · intro h
    unfold formatUrl
    simp [h]

/-- Witness for `formatUrl_spec` on concrete URLs with and without a
scheme. -/
theorem formatUrl_spec_witness :
    hasScheme (pyS "wikipedia.org") = false ∧
    formatUrl (pyS "wikipedia.org") = pyS "https://wikipedia.org" ∧
    formatUrl (pyS "https://wikipedia.org") = pyS "https://wikipedia.org" :=
  ⟨by decide, (formatUrl_spec (pyS "wikipedia.org")).1 (by decide),
    (formatUrl_spec (pyS "https://wikipedia.org")).2 (by decide)⟩

/-- Counterexample to C3 as stated: `ftp://example.com` already has a scheme,
yet `navigate` does not leave it unchanged: it prefixes `https://` and issues
`goto` on the mangled URL. -/
theorem formatUrl_scheme_counterexample :
    hasScheme (pyS "ftp://example.com") = true ∧
    formatUrl (pyS "ftp://example.com") ≠ pyS "ftp://example.com" ∧
    (navigate (pyS "ftp://example.com") none ⟨.ok, .response 200, .ok⟩ pageReady).trace =
      [.goto (pyS "https://ftp://example.com") 30000, .waitForLoadState] := by
  refine ⟨by decide, by decide, ?_⟩
  decide

/-- `setup` never issues a `goto`. -/
theorem setup_no_goto (e : SetupEnv) (s : BTState) : gotos (setup e s).trace = 0 := by
  unfold setup
  cases hb : s.browser
  · cases e
    case failStart m =>
      cases hp : s.playwright <;> simp [hb, hp, gotos, isGoto]
    all_goals simp [hb, gotos, isGoto]
  · simp [hb, gotos, isGoto]

/-- On an invalid URL `navRest` fails immediately: no driver call. -/
theorem navRest_invalid (url : List Char) (t : Option Nat) (e : NavEnv) (s1 : BTState)
    (h : validate_url (formatUrl url) = false) :
    navRest url t e s1 =
      ⟨.error (.navigationError (pyS "Invalid URL format: " ++ formatUrl url)), s1, []⟩ := by
  unfold navRest
  simp [h]

/-- C1 (amended): on a URL that fails the validation of the prefixed URL,
`navigate` never issues a `goto`; and when the page is already initialized it
raises `NavigationError` with no driver call at all and no state change.  (As
originally stated the claim fails: with no page yet, `navigate` first runs
`setup`, whose browser-launching driver calls precede the failure.) -/
theorem navigate_invalid_url (url : List Char) (t : Option Nat) (e : NavEnv) (s : BTState)
    (h : validate_url (formatUrl url) = false) :
    gotos (navigate url t e s).trace = 0 ∧
    (s.page = true → navigate url t e s =
      ⟨.error (.navigationError (pyS "Invalid URL format: " ++ formatUrl url)), s, []⟩) := by
  constructor
  · unfold navigate
    cases hp : s.page
    · simp only [hp, Bool.false_eq_true, if_neg, ite_false]
      cases hres : (setup e.setupEnv s).res <;>
        simp only [hres, navRest_invalid url t e _ h]
      · simpa using setup_no_goto e.setupEnv s
      · simpa [gotos, List.filter_append] using setup_no_goto e.setupEnv s
    · simp only [hp, ite_true]
      simp only [navRest_invalid url t e _ h]
      simp [gotos, isGoto]
  · intro hp
    unfold navigate
    simp only [hp, ite_true]
    simp only [navRest_invalid url t e _ h]
    simp

/-- Witness for `navigate_invalid_url`: with a live page, navigating to the
empty URL fails with `NavigationError` before any driver call. -/
theorem navigate_invalid_url_witness :
    validate_url (formatUrl (pyS "")) = false ∧
    pageReady.page = true ∧
    navigate (pyS "") none ⟨.ok, .response 200, .ok⟩ pageReady =
      ⟨.error (.navigationError (pyS "Invalid URL format: " ++ formatUrl (pyS ""))),
        pageReady, []⟩ :=
  ⟨by decide, rfl,
    (navigate_invalid_url (pyS "") none ⟨.ok, .response 200, .ok⟩ pageReady (by decide)).2 rfl⟩

/-- Counterexample to C1 as stated: on a fresh wrapper (no page yet) the very
same malformed URL makes `navigate` perform the whole browser setup, so driver
calls do precede the failure. -/
theorem navigate_invalid_url_counterexample :
    validate_url (formatUrl (pyS "")) = false ∧
    (navigate (pyS "") none ⟨.ok, .response 200, .ok⟩ initState).res =
      .error (.navigationError (pyS "Invalid URL format: https://")) ∧
    (navigate (pyS "") none ⟨.ok, .response 200, .ok⟩ initState).trace =
      [.startPlaywright, .launchBrowser, .newPage, .setDefaultTimeout 30000] := by
  refine ⟨by decide, ?_, ?_⟩ <;> decide

/-- C4 (amended): on a live page, `extract_content` with no selectors always
succeeds and returns a dictionary with exactly the keys `title`, `url`,
`text`, `main_content` and `links`; every entry of `links` is an outbound
link of the page, but the entry lists only those outbound links whose anchor
text is non-blank after trimming (not all of them, as originally stated). -/
theorem extract_content_default (pc : PageContent) (s : BTState) (hp : s.page = true) :
    extract_content pc ⟨none⟩ none s =
      ⟨.ok [("title", .s pc.title), ("url", .s pc.url), ("text", .s pc.body),
            ("main_content", .s (mainContentJs pc)), ("links", .links (linksJs pc))],
        s, [.pageRead]⟩ ∧
    ∀ l ∈ linksJs pc, l ∈ specOutboundLinks pc := by
  constructor
  · unfold extract_content
    simp [hp]
  · intro l hl
    rw [linksJs, List.mem_filter] at hl
    rw [specOutboundLinks, List.mem_filter]
    exact ⟨hl.1, (Bool.and_eq_true _ _ |>.mp hl.2).2⟩

/-- Witness for `extract_content_default` on a concrete page and live
wrapper. -/
theorem extract_content_default_witness :
    extract_content samplePage ⟨none⟩ none pageReady =
      ⟨.ok [("title", .s (pyS "Title")), ("url", .s (pyS "https://e.example")),
            ("text", .s (pyS "Hello")), ("main_content", .s (pyS "Hello")),
            ("links", .links [⟨pyS "link", pyS "https://e.example/a"⟩])],
        pageReady, [.pageRead]⟩ :=
  (extract_content_default samplePage pageReady rfl).1

/-- Counterexample to C4 as stated: on a page whose only outbound link has an
empty anchor text, the `links` entry is empty, omitting that outbound link. -/
theorem extract_links_counterexample :
    specOutboundLinks emptyTextLinkPage = [⟨[], pyS "http://out.example/a"⟩] ∧
    (extract_content emptyTextLinkPage ⟨none⟩ none pageReady).res =
      .ok [("title", .s (pyS "T")), ("url", .s (pyS "https://x.example")),
           ("text", .s (pyS "body")), ("main_content", .s (pyS "body")),
           ("links", .links [])] := by
  constructor
  · decide
  · decide

/-- The action phase performs at most one wrapper call. -/
theorem onMsgAction_executed_len (response : List Char) (we : WrapperEnv) (s : BTState)
    (hist : List (List Char)) :
    (onMsgAction response we s hist).executed.length ≤ 1 := by
  unfold onMsgAction
  dsimp only
  repeat' split
  all_goals simp

/-- A wrapper call the action phase performs belongs to the first trigger
phrase, in if-chain order, found in the lower-cased response. -/
theorem onMsgAction_first_trigger (response : List Char) (we : WrapperEnv) (s : BTState)
    (hist : List (List Char)) :
    ∀ c ∈ (onMsgAction response we s hist).executed,
      triggers.find? (fun t => pyContains (pyLower response) t) = some (callTrigger c) := by
  unfold onMsgAction
  dsimp only
  repeat' split
  all_goals intro c hc
  all_goals simp only [List.mem_singleton, List.not_mem_nil] at hc
  all_goals first
  | exact absurd hc (by simp)
  | (subst hc; simp_all [triggers, List.find?, callTrigger])

/-- On a caught exception the action phase leaves the history unchanged and
streams exactly the error token. -/
theorem onMsgAction_caught_some (response : List Char) (we : WrapperEnv) (s : BTState)
    (hist : List (List Char)) :
    ∀ er, (onMsgAction response we s hist).caught = some er →
      (onMsgAction response we s hist).history = hist ∧
      (onMsgAction response we s hist).streamed = [errTok er] := by
  unfold onMsgAction
  dsimp only
  repeat' split
  all_goals intro er h
  all_goals simp_all

/-- With nothing caught the action phase appends the response to the
history. -/
theorem onMsgAction_caught_none (response : List Char) (we : WrapperEnv) (s : BTState)
    (hist : List (List Char)) :
    (onMsgAction response we s hist).caught = none →
      (onMsgAction response we s hist).history = hist ++ [response] := by
  unfold onMsgAction
  dsimp only
  repeat' split
  all_goals intro h
  all_goals simp_all

/-- C2: for every LLM response text, any action the dispatch performs belongs
to the first matching trigger phrase, in the tested order `navigate to`,
`click`, `fill`, `extract`, found in the lower-cased response, and the wrapper
executes at most one action per message. -/
theorem dispatch_first_trigger (response : List Char) (we : WrapperEnv) (s : BTState)
    (hist : List (List Char)) :
    (onMsgAction response we s hist).executed.length ≤ 1 ∧
    (∀ c ∈ (onMsgAction response we s hist).executed,
      triggers.find? (fun t => pyContains (pyLower response) t) = some (callTrigger c)) ∧
    (∀ userMsg llm, (on_message userMsg llm we s hist).executed.length ≤ 1) := by
  refine ⟨onMsgAction_executed_len response we s hist,
    onMsgAction_first_trigger response we s hist, ?_⟩
  intro userMsg llm
  unfold on_message
  dsimp only
  split
  · simp
  · exact onMsgAction_executed_len _ we s hist

/-- Witness for `dispatch_first_trigger`: in a response containing both
`click` and `extract`, the performed call is a click, and `click` is the first
trigger, in chain order, contained in the response. -/
theorem dispatch_first_trigger_witness :
    (onMsgAction (pyS "click #btn then extract") sampleWe pageReady []).executed.length ≤ 1 ∧
    triggers.find? (fun t => pyContains (pyLower (pyS "click #btn then extract")) t)
      = some (callTrigger (WrapperCall.clickOn (pyS "#btn"))) :=
  ⟨(dispatch_first_trigger (pyS "click #btn then extract") sampleWe pageReady []).1,
   (dispatch_first_trigger (pyS "click #btn then extract") sampleWe pageReady []).2.1
     (WrapperCall.clickOn (pyS "#btn")) (by decide)⟩

/-- C7: no exception escapes the message handler; an LLM failure puts the
apology token in the stream; a wrapper failure during the action phase puts
the error token in the stream. -/
theorem handler_no_escape (userMsg : List Char) (llm : LlmEnv) (we : WrapperEnv)
    (s : BTState) (hist : List (List Char)) :
    (on_message userMsg llm we s hist).escaped = none ∧
    (∀ m, llm.failure = some m →
      apologyMsg m ∈ (on_message userMsg llm we s hist).streamed) ∧
    (∀ er, (on_message userMsg llm we s hist).actionErr = some er →
      errTok er ∈ (on_message userMsg llm we s hist).streamed) := by
  refine ⟨?_, ?_, ?_⟩
  · unfold on_message
    dsimp only
    split <;> rfl
  · intro m hm
    have hne : (!(apologyMsg m).isEmpty) = true := rfl
    have hmem : apologyMsg m ∈ (generate_response llm).filter (fun w => !w.isEmpty) := by
      refine List.mem_filter.mpr ⟨?_, hne⟩
      unfold generate_response
      rw [hm]
      exact List.mem_append_right _ (by simp)
    unfold on_message
    dsimp only
    split
    · exact hmem
    · exact List.mem_append_left _ hmem
  · intro er h
    unfold on_message at h ⊢
    dsimp only at h ⊢
    by_cases hb :
        (pyStripWs ((generate_response llm).filter (fun w => !w.isEmpty)).flatten).isEmpty = true
    · rw [if_pos hb] at h
      simp at h
    · rw [if_neg hb] at h
      rw [if_neg hb]
      dsimp only at h ⊢
      have hs := (onMsgAction_caught_some _ we s hist er h).2
      refine List.mem_append_right _ ?_
      rw [hs]
      exact List.mem_singleton_self _

/-- Witness for `handler_no_escape`: an LLM failure streams the apology, and a
failing click streams the browser-action error token. -/
theorem handler_no_escape_witness :
    (on_message (pyS "hi") llmFail sampleWe pageReady []).escaped = none ∧
    apologyMsg (pyS "boom") ∈ (on_message (pyS "hi") llmFail sampleWe pageReady []).streamed ∧
    errTok (.browserError (pyS "Click operation failed: no element")) ∈
      (on_message (pyS "hi") llmClick sampleWeErr pageReady []).streamed :=
  ⟨(handler_no_escape (pyS "hi") llmFail sampleWe pageReady []).1,
   (handler_no_escape (pyS "hi") llmFail sampleWe pageReady []).2.1 (pyS "boom") rfl,
   (handler_no_escape (pyS "hi") llmClick sampleWeErr pageReady []).2.2
     (.browserError (pyS "Click operation failed: no element")) (by decide)⟩

/-- C8: when the browser-action phase raises, the session history is left
unchanged; the history changes only when no exception was caught, and then by
appending the response string. -/
theorem history_append_spec (userMsg : List Char) (llm : LlmEnv) (we : WrapperEnv)
    (s : BTState) (hist : List (List Char)) :
    (∀ er, (on_message userMsg llm we s hist).actionErr = some er →
      (on_message userMsg llm we s hist).history = hist) ∧
    ((on_message userMsg llm we s hist).history ≠ hist →
      (on_message userMsg llm we s hist).actionErr = none) ∧
    ((on_message userMsg llm we s hist).actionErr = none →
      (on_message userMsg llm we s hist).history = hist ∨
      (on_message userMsg llm we s hist).history =
        hist ++ [((generate_response llm).filter fun w => !w.isEmpty).flatten]) := by
  have part1 : ∀ er, (on_message userMsg llm we s hist).actionErr = some er →
      (on_message userMsg llm we s hist).history = hist := by
    intro er h
    unfold on_message at h ⊢
    dsimp only at h ⊢
    by_cases hb :
        (pyStripWs ((generate_response llm).filter (fun w => !w.isEmpty)).flatten).isEmpty = true
    · rw [if_pos hb]
    · rw [if_neg hb] at h
      rw [if_neg hb]
      dsimp only at h ⊢
      exact (onMsgAction_caught_some _ we s hist er h).1
  refine ⟨part1, ?_, ?_⟩
  · intro hne
    cases hopt : (on_message userMsg llm we s hist).actionErr with
    | none => rfl
    | some er => exact absurd (part1 er hopt) hne
  · intro h
    unfold on_message at h ⊢
    dsimp only at h ⊢
    by_cases hb :
        (pyStripWs ((generate_response llm).filter (fun w => !w.isEmpty)).flatten).isEmpty = true
    · rw [if_pos hb]
      exact Or.inl rfl
    · rw [if_neg hb] at h
      rw [if_neg hb]
      dsimp only at h ⊢
      exact Or.inr (onMsgAction_caught_none _ we s hist h)

/-- Witness for `history_append_spec`: the failing click leaves the prior
history alone; the successful click appends the response. -/
theorem history_append_spec_witness :
    (on_message (pyS "hi") llmClick sampleWeErr pageReady [pyS "old"]).history = [pyS "old"] ∧
    ((on_message (pyS "hi") llmClick sampleWe pageReady []).history = [] ∨
      (on_message (pyS "hi") llmClick sampleWe pageReady []).history =
        [] ++ [((generate_response llmClick).filter fun w => !w.isEmpty).flatten]) :=
  ⟨(history_append_spec (pyS "hi") llmClick sampleWeErr pageReady [pyS "old"]).1
      (.browserError (pyS "Click operation failed: no element")) (by decide),
   (history_append_spec (pyS "hi") llmClick sampleWe pageReady []).2.2 (by decide)⟩

/-- Lower-casing leaves no uppercase character. -/
theorem noUpper_pyLower (s : List Char) : noUpper (pyLower s) := by
  intro c hc
  obtain ⟨a, _, rfl⟩ := List.mem_map.mp hc
  exact pyLowerChar_not_upper a

/-- `noUpper` transfers along character inclusion. -/
theorem noUpper_of_subset {t u : List Char} (h : ∀ c ∈ t, c ∈ u) (hu : noUpper u) :
    noUpper t :=
  fun c hc => hu c (h c hc)

/-- `noUpper` is closed under concatenation. -/
theorem noUpper_append {a b : List Char} (ha : noUpper a) (hb : noUpper b) :
    noUpper (a ++ b) := by
  intro c hc
  rcases List.mem_append.mp hc with h | h
  · exact ha c h
  · exact hb c h

/-- The part before the separator is cut out of the original string. -/
theorem splitOnce_fst_subset (s sep : List Char) : ∀ c ∈ (splitOnce s sep).1, c ∈ s := by
  unfold splitOnce
  rcases hf : findSub sep s with _ | i <;> simp only [hf]
  · exact fun c hc => hc
  · exact fun c hc => (List.take_sublist _ _).subset hc

/-- The part after the separator is cut out of the original string. -/
theorem splitOnce_snd_subset (s sep after : List Char)
    (h : (splitOnce s sep).2 = some after) : ∀ c ∈ after, c ∈ s := by
  unfold splitOnce at h
  rcases hf : findSub sep s with _ | i <;> rw [hf] at h
  · cases h
  · dsimp only at h
    cases h
    exact fun c hc => (List.drop_sublist _ _).subset hc

/-- Characters of the whitespace-split words come from the input or the
accumulator. -/
theorem wsSplitAux_subset (s : List Char) :
    ∀ acc, ∀ w ∈ wsSplitAux s acc, ∀ c ∈ w, c ∈ s ∨ c ∈ acc := by
  induction s with
  | nil =>
    intro acc w hw c hc
    unfold wsSplitAux at hw
    by_cases ha : acc.isEmpty = true <;> simp [ha] at hw
    subst hw
    exact Or.inr (List.mem_reverse.mp hc)
  | cons a t ih =>
    intro acc w hw c hc
    unfold wsSplitAux at hw
    by_cases hws : a.isWhitespace = true
    · rw [if_pos hws] at hw
      by_cases ha : acc.isEmpty = true
      · rw [if_pos ha] at hw
        rcases ih [] w hw c hc with h | h
        · exact Or.inl (List.mem_cons_of_mem _ h)
        · cases h
      · rw [if_neg ha] at hw
        rcases List.mem_cons.mp hw with rfl | hw
        · exact Or.inr (List.mem_reverse.mp hc)
        · rcases ih [] w hw c hc with h | h
          · exact Or.inl (List.mem_cons_of_mem _ h)
          · cases h
    · rw [if_neg hws] at hw
      rcases ih (a :: acc) w hw c hc with h | h
      · exact Or.inl (List.mem_cons_of_mem _ h)
      · rcases List.mem_cons.mp h with rfl | h
        · exact Or.inl (List.mem_cons_self _ _)
        · exact Or.inr h

/-- Characters of the whitespace-split words come from the input. -/
theorem pySplitWs_subset (s : List Char) : ∀ w ∈ pySplitWs s, ∀ c ∈ w, c ∈ s := by
  intro w hw c hc
  rcases wsSplitAux_subset s [] w hw c hc with h | h
  · exact h
  · cases h

/-- Stripping removes characters only. -/
theorem pyStrip_subset (s cset : List Char) : ∀ c ∈ pyStrip s cset, c ∈ s := by
  intro c hc
  unfold pyStrip at hc
  rw [List.mem_reverse] at hc
  have h1 := (List.dropWhile_sublist _).subset hc
  rw [List.mem_reverse] at h1
  exact (List.dropWhile_sublist _).subset h1

/-- The URL the navigate branch builds from a no-uppercase word has no
uppercase character (the added prefix is lower-case). -/
theorem noUpper_urlify (u : List Char) (hu : noUpper u) :
    noUpper (if (pyS "http://").isPrefixOf u || (pyS "https://").isPrefixOf u then u
             else pyS "https://" ++ u) := by
  split
  · exact hu
  · exact noUpper_append (by unfold noUpper; decide) hu

/-- Every argument of a wrapper call the action phase performs is free of
ASCII uppercase characters. -/
theorem onMsgAction_args_no_upper (response : List Char) (we : WrapperEnv) (s : BTState)
    (hist : List (List Char)) :
    ∀ c ∈ (onMsgAction response we s hist).executed, callArgsNoUpper c := by
  have hr : noUpper (pyLower response) := noUpper_pyLower response
  unfold onMsgAction
  dsimp only
  by_cases h1 : pyContains (pyLower response) navTrigger = true
  · rw [if_pos h1]
    rcases h5 : (splitOnce (pyLower response) navTrigger).2 with _ | after <;>
      simp only [h5]
    · intro c hc
      cases hc
    · have hafter : noUpper after :=
        noUpper_of_subset (splitOnce_snd_subset _ _ _ h5) hr
      rcases h6 : pySplitWs after with _ | ⟨w, ws⟩ <;> simp only [h6]
      · intro c hc
        cases hc
      · have hw : noUpper w :=
          noUpper_of_subset
            (fun c hc => pySplitWs_subset after w (h6 ▸ List.mem_cons_self w ws) c hc)
            hafter
        have hurl0 : noUpper (pyStrip w stripSet) :=
          noUpper_of_subset (pyStrip_subset w stripSet) hw
        split <;>
        · intro c hc
          rcases List.mem_singleton.mp hc with rfl
          exact noUpper_urlify _ hurl0
  · rw [if_neg h1]
    by_cases h2 : pyContains (pyLower response) clickTrigger = true
    · rw [if_pos h2]
      rcases h5 : (splitOnce (pyLower response) clickTrigger).2 with _ | after <;>
        simp only [h5]
      · intro c hc
        cases hc
      · have hafter : noUpper after :=
          noUpper_of_subset (splitOnce_snd_subset _ _ _ h5) hr
        rcases h6 : pySplitWs after with _ | ⟨w, ws⟩ <;> simp only [h6]
        · intro c hc
          cases hc
        · have hw : noUpper w :=
            noUpper_of_subset
              (fun c hc => pySplitWs_subset after w (h6 ▸ List.mem_cons_self w ws) c hc)
              hafter
          have hsel : noUpper (pyStrip w stripSet) :=
            noUpper_of_subset (pyStrip_subset w stripSet) hw
          split <;>
          · intro c hc
            rcases List.mem_singleton.mp hc with rfl
            exact hsel
    · rw [if_neg h2]
      by_cases h3 : pyContains (pyLower response) fillTrigger = true
      · rw [if_pos h3]
        rcases h5 : (splitOnce (pyLower response) fillTrigger).2 with _ | after <;>
          simp only [h5]
        · intro c hc
          cases hc
        · have hafter : noUpper after :=
            noUpper_of_subset (splitOnce_snd_subset _ _ _ h5) hr
          rcases h6 : (splitOnce after (pyS "with")).2 with _ | valPart <;>
            simp only [h6]
          · intro c hc
            cases hc
          · have hsel : noUpper (pyStrip (splitOnce after (pyS "with")).1 stripSet) :=
              noUpper_of_subset (pyStrip_subset _ stripSet)
                (noUpper_of_subset (splitOnce_fst_subset after (pyS "with")) hafter)
            have hval : noUpper (pyStrip valPart stripSet) :=
              noUpper_of_subset (pyStrip_subset _ stripSet)
                (noUpper_of_subset (splitOnce_snd_subset _ _ _ h6) hafter)
            split <;>
            · intro c hc
              rcases List.mem_singleton.mp hc with rfl
              exact ⟨hsel, hval⟩
      · rw [if_neg h3]
        by_cases h4 : pyContains (pyLower response) extractTrigger = true
        · rw [if_pos h4]
          split <;>
          · intro c hc
            rcases List.mem_singleton.mp hc with rfl
            exact trivial
        · rw [if_neg h4]
          intro c hc
          cases hc

/-- C9: every URL, selector and fill value the orchestrator passes to the
wrapper is cut out of the lower-cased copy of the response (plus a lower-case
`https://` prefix), so it never contains an ASCII uppercase character,
whatever the casing of the LLM output. -/
theorem args_no_upper (response : List Char) (we : WrapperEnv) (s : BTState)
    (hist : List (List Char)) :
    (∀ c ∈ (onMsgAction response we s hist).executed, callArgsNoUpper c) ∧
    (∀ userMsg llm c, c ∈ (on_message userMsg llm we s hist).executed →
      callArgsNoUpper c) := by
  refine ⟨onMsgAction_args_no_upper response we s hist, ?_⟩
  intro userMsg llm c hc
  unfold on_message at hc
  dsimp only at hc
  by_cases hb :
      (pyStripWs ((generate_response llm).filter (fun w => !w.isEmpty)).flatten).isEmpty = true
  · rw [if_pos hb] at hc
    cases hc
  · rw [if_neg hb] at hc
    dsimp only at hc
    exact onMsgAction_args_no_upper _ we s hist c hc

/-- Witness for `args_no_upper`: an upper-case click command yields a
lower-cased selector. -/
theorem args_no_upper_witness :
    callArgsNoUpper (WrapperCall.clickOn (pyS "#btn")) :=
  (args_no_upper (pyS "Click #BTN now") sampleWe pageReady []).1
    (WrapperCall.clickOn (pyS "#btn")) (by decide)

/-! ### The session lifecycle invariant (C6) -/

/-- `launches` distributes over concatenation. -/
theorem launches_append (a b : List DriverCall) :
    launches (a ++ b) = launches a + launches b := by
  simp [launches, List.filter_append]

/-- `pagesMade` distributes over concatenation. -/
theorem pagesMade_append (a b : List DriverCall) :
    pagesMade (a ++ b) = pagesMade a + pagesMade b := by
  simp [pagesMade, List.filter_append]

/-- `closes` distributes over concatenation. -/
theorem closes_append (a b : List DriverCall) :
    closes (a ++ b) = closes a + closes b := by
  simp [closes, List.filter_append]

/-- A prefix has no more launches. -/
theorem launches_take_le (tr : List DriverCall) (m : Nat) :
    launches (tr.take m) ≤ launches tr :=
  (((List.take_sublist m tr).filter isLaunch).length_le : _)

/-- A prefix has no more page creations. -/
theorem pagesMade_take_le (tr : List DriverCall) (m : Nat) :
    pagesMade (tr.take m) ≤ pagesMade tr :=
  (((List.take_sublist m tr).filter isNewPage).length_le : _)

/-- A lifecycle-free segment counts zero everywhere. -/
theorem counts_free {seg : List DriverCall} (h : lifecycleFree seg) :
    launches seg = 0 ∧ pagesMade seg = 0 ∧ closes seg = 0 := by
  refine ⟨?_, ?_, ?_⟩
  · have hn : seg.filter isLaunch = [] :=
      List.filter_eq_nil_iff.mpr fun c hc => by simp [(h c hc).1]
    simp [launches, hn]
  · have hn : seg.filter isNewPage = [] :=
      List.filter_eq_nil_iff.mpr fun c hc => by simp [(h c hc).2.1]
    simp [pagesMade, hn]
  · have hn : seg.filter isClose = [] :=
      List.filter_eq_nil_iff.mpr fun c hc => by simp [(h c hc).2.2]
    simp [closes, hn]

/-- A `SegOK` follows from the end-to-end count balance when the segment does
not mix launches with closes (no operation of the wrapper does). -/
theorem segOK_of_le {s s' : BTState} {seg : List DriverCall}
    (hlb : launches seg + bNum s = closes seg + bNum s')
    (hpb : pNum s + pagesMade seg ≤ closes seg + pNum s')
    (hpi : s'.page = true → s'.browser = true)
    (hl1 : bNum s + launches seg ≤ 1)
    (hp1 : pNum s + pagesMade seg ≤ 1) : SegOK s seg s' := by
  refine ⟨hlb, hpb, hpi, ?_, ?_⟩
  · intro m
    have := launches_take_le seg m
    omega
  · intro m
    have := pagesMade_take_le seg m
    omega

/-- The empty segment is fine. -/
theorem segOK_refl (s : BTState) (hpi : s.page = true → s.browser = true) :
    SegOK s [] s := by
  have h0 : launches ([] : List DriverCall) = 0 := rfl
  have h1 : pagesMade ([] : List DriverCall) = 0 := rfl
  have h2 : closes ([] : List DriverCall) = 0 := rfl
  have hb : bNum s ≤ 1 := by unfold bNum; split <;> omega
  have hp : pNum s ≤ 1 := by unfold pNum; split <;> omega
  exact segOK_of_le (by omega) (by omega) hpi (by omega) (by omega)

/-- Appending lifecycle-free driver calls preserves `SegOK`. -/
theorem segOK_append_free {s s' : BTState} {a b : List DriverCall}
    (h : SegOK s a s') (hf : lifecycleFree b) : SegOK s (a ++ b) s' := by
  obtain ⟨hfl, hfp, hfc⟩ := counts_free hf
  refine ⟨?_, ?_, h.pImp, ?_, ?_⟩
  · rw [launches_append, closes_append, hfl, hfc]
    have := h.lb
    omega
  · rw [pagesMade_append, closes_append, hfp, hfc]
    have := h.pb
    omega
  · intro m
    rw [List.take_append_eq_append_take, launches_append, closes_append]
    have hbf : lifecycleFree (b.take (m - a.length)) :=
      fun c hc => hf c ((List.take_sublist _ _).subset hc)
    obtain ⟨h1, _, h3⟩ := counts_free hbf
    rw [h1, h3]
    have := h.lbPre m
    omega
  · intro m
    rw [List.take_append_eq_append_take, pagesMade_append, closes_append]
    have hbf : lifecycleFree (b.take (m - a.length)) :=
      fun c hc => hf c ((List.take_sublist _ _).subset hc)
    obtain ⟨_, h2, h3⟩ := counts_free hbf
    rw [h2, h3]
    have := h.pbPre m
    omega

/-- A lifecycle-free segment leaving the state as it was is fine. -/
theorem segOK_free {s : BTState} {seg : List DriverCall} (hf : lifecycleFree seg)
    (hpi : s.page = true → s.browser = true) : SegOK s seg s := by
  have h := segOK_append_free (segOK_refl s hpi) hf
  simpa using h

/-- `setup` respects the lifecycle balance from every consistent state. -/
theorem setup_segOK (e : SetupEnv) (s : BTState)
    (hpi : s.page = true → s.browser = true) :
    SegOK s (setup e s).trace (setup e s).state := by
  unfold setup
  by_cases hb : s.browser = true
  · rw [if_pos hb]
    exact segOK_refl s hpi
  · rw [if_neg hb]
    have hb' : s.browser = false := by
      revert hb
      cases s.browser <;> simp
    have hp' : s.page = false := by
      cases hp : s.page
      · rfl
      · rw [hpi hp] at hb'
        cases hb'
    have hbn : bNum s = 0 := by unfold bNum; rw [hb']; rfl
    have hpn : pNum s = 0 := by unfold pNum; rw [hp']; rfl
    cases e with
    | ok =>
        dsimp only
        refine segOK_of_le ?_ ?_ (fun _ => rfl) ?_ ?_
        · show 1 + bNum s = 0 + 1
          omega
        · show pNum s + 1 ≤ 0 + 1
          omega
        · show bNum s + 1 ≤ 1
          omega
        · show pNum s + 1 ≤ 1
          omega
    | failStart m =>
        dsimp only
        by_cases hpw : s.playwright = true
        · rw [if_pos hpw]
          refine segOK_of_le ?_ ?_ (fun h => hpi h) ?_ ?_
          · show 0 + bNum s = 0 + bNum s
            rfl
          · show pNum s + 0 ≤ 0 + pNum s
            omega
          · show bNum s + 0 ≤ 1
            omega
          · show pNum s + 0 ≤ 1
            omega
        · rw [if_neg hpw]
          exact segOK_refl s hpi
    | failLaunch m =>
        dsimp only
        refine segOK_of_le ?_ ?_ (fun h => hpi h) ?_ ?_
        · show 0 + bNum s = 0 + bNum s
          rfl
        · show pNum s + 0 ≤ 0 + pNum s
          omega
        · show bNum s + 0 ≤ 1
          omega
        · show pNum s + 0 ≤ 1
          omega
    | failNewPage m =>
        dsimp only
        refine segOK_of_le ?_ ?_ (fun _ => rfl) ?_ ?_
        · show 1 + bNum s = 0 + 1
          omega
        · show pNum s + 0 ≤ 0 + pNum s
          omega
        · show bNum s + 1 ≤ 1
          omega
        · show pNum s + 0 ≤ 1
          omega
    | failSetTimeout m =>
        dsimp only
        refine segOK_of_le ?_ ?_ (fun _ => rfl) ?_ ?_
        · show 1 + bNum s = 0 + 1
          omega
        · show pNum s + 1 ≤ 0 + 1
          omega
        · show bNum s + 1 ≤ 1
          omega
        · show pNum s + 1 ≤ 1
          omega

/-- `cleanup` respects the lifecycle balance from every consistent state. -/
theorem cleanup_segOK (e : CleanupEnv) (s : BTState)
    (hpi : s.page = true → s.browser = true) :
    SegOK s (cleanup e s).trace (cleanup e s).state := by
  unfold cleanup
  by_cases hb : s.browser = true
  · rw [if_pos hb]
    have hbn : bNum s = 1 := by unfold bNum; simp [hb]
    have hpn : pNum s ≤ 1 := by unfold pNum; split <;> omega
    have hclosed : ∀ h : false = true, False := fun h => by cases h
    by_cases hpw : s.playwright = true
    · rw [if_pos hpw]
      cases e.stopFails with
      | none =>
          refine segOK_of_le ?_ ?_ (fun h => absurd h (by simp)) ?_ ?_
          · show 0 + bNum s = 1 + 0
            omega
          · show pNum s + 0 ≤ 1 + 0
            omega
          · show bNum s + 0 ≤ 1
            omega
          · show pNum s + 0 ≤ 1
            omega
      | some m =>
          refine segOK_of_le ?_ ?_ (fun h => absurd h (by simp)) ?_ ?_
          · show 0 + bNum s = 1 + 0
            omega
          · show pNum s + 0 ≤ 1 + 0
            omega
          · show bNum s + 0 ≤ 1
            omega
          · show pNum s + 0 ≤ 1
            omega
    · rw [if_neg hpw]
      refine segOK_of_le ?_ ?_ (fun h => absurd h (by simp)) ?_ ?_
      · show 0 + bNum s = 1 + 0
        omega
      · show pNum s + 0 ≤ 1 + 0
        omega
      · show bNum s + 0 ≤ 1
        omega
      · show pNum s + 0 ≤ 1
        omega
  · rw [if_neg hb]
    exact segOK_refl s hpi

/-- `navRest` does not change the wrapper state. -/
theorem navRest_state_eq (url : List Char) (t : Option Nat) (e : NavEnv) (s1 : BTState) :
    (navRest url t e s1).state = s1 := by
  unfold navRest
  dsimp only
  repeat' split
  all_goals rfl

/-- `navRest` issues only lifecycle-free driver calls. -/
theorem navRest_free (url : List Char) (t : Option Nat) (e : NavEnv) (s1 : BTState) :
    lifecycleFree (navRest url t e s1).trace := by
  unfold navRest
  dsimp only
  repeat' split
  all_goals simp [lifecycleFree, isLaunch, isNewPage, isClose]

/-- `navigate` respects the lifecycle balance: its only lifecycle activity is
the embedded `setup`. -/
theorem navigate_segOK (url : List Char) (t : Option Nat) (e : NavEnv) (s : BTState)
    (hpi : s.page = true → s.browser = true) :
    SegOK s (navigate url t e s).trace (navigate url t e s).state := by
  unfold navigate
  dsimp only
  by_cases hp : s.page = true
  · rw [if_pos hp]
    dsimp only
    rw [navRest_state_eq]
    have h := segOK_free (navRest_free url t e s) hpi
    simpa using h
  · rw [if_neg hp]
    cases hres : (setup e.setupEnv s).res <;> dsimp only
    · exact setup_segOK e.setupEnv s hpi
    · rw [navRest_state_eq]
      exact segOK_append_free (setup_segOK e.setupEnv s hpi)
        (navRest_free url t e (setup e.setupEnv s).state)

/-- `click` does not change the state and is lifecycle-free. -/
theorem click_segOK (sel : List Char) (t : Option Nat) (e : OpOutcome) (s : BTState)
    (hpi : s.page = true → s.browser = true) :
    SegOK s (click sel t e s).trace (click sel t e s).state := by
  have h1 : (click sel t e s).state = s := by
    unfold click
    dsimp only
    repeat' split
    all_goals rfl
  have h2 : lifecycleFree (click sel t e s).trace := by
    unfold click
    dsimp only
    repeat' split
    all_goals simp [lifecycleFree, isLaunch, isNewPage, isClose]
  rw [h1]
  exact segOK_free h2 hpi

/-- `fill_form` does not change the state and is lifecycle-free. -/
theorem fill_segOK (sel val : List Char) (t : Option Nat) (e : OpOutcome) (s : BTState)
    (hpi : s.page = true → s.browser = true) :
    SegOK s (fill_form sel val t e s).trace (fill_form sel val t e s).state := by
  have h1 : (fill_form sel val t e s).state = s := by
    unfold fill_form
    dsimp only
    repeat' split
    all_goals rfl
  have h2 : lifecycleFree (fill_form sel val t e s).trace := by
    unfold fill_form
    dsimp only
    repeat' split
    all_goals simp [lifecycleFree, isLaunch, isNewPage, isClose]
  rw [h1]
  exact segOK_free h2 hpi

/-- `extract_content` does not change the state and is lifecycle-free. -/
theorem extract_segOK (pc : PageContent) (e : ExtractEnv)
    (sels : Option (List (String × SelOutcome))) (s : BTState)
    (hpi : s.page = true → s.browser = true) :
    SegOK s (extract_content pc e sels s).trace (extract_content pc e sels s).state := by
  have h1 : (extract_content pc e sels s).state = s := by
    unfold extract_content
    dsimp only
    repeat' split
    all_goals rfl
  have h2 : lifecycleFree (extract_content pc e sels s).trace := by
    unfold extract_content
    dsimp only
    repeat' split
    all_goals simp [lifecycleFree, isLaunch, isNewPage, isClose]
  rw [h1]
  exact segOK_free h2 hpi

/-- Every wrapper call respects the lifecycle balance. -/
theorem step_segOK (s : BTState) (c : ApiCall) (hpi : s.page = true → s.browser = true) :
    SegOK s (step s c).2 (step s c).1 := by
  cases c <;> simp only [step]
  case setupC e => exact setup_segOK e s hpi
  case navigateC url t e => exact navigate_segOK url t e s hpi
  case clickC sel t e => exact click_segOK sel t e s hpi
  case fillC sel v t e => exact fill_segOK sel v t e s hpi
  case extractC pc e sels => exact extract_segOK pc e sels s hpi
  case cleanupC e => exact cleanup_segOK e s hpi

/-- Extending a trace by one operation preserves the invariant. -/
theorem inv_extend {s s' : BTState} {tr seg : List DriverCall}
    (hi : Inv s tr) (hs : SegOK s seg s') : Inv s' (tr ++ seg) := by
  refine ⟨?_, ?_, hs.pImp, ?_⟩
  · rw [launches_append, closes_append]
    have h1 := hi.lb
    have h2 := hs.lb
    omega
  · rw [pagesMade_append, closes_append]
    have h1 := hi.pb
    have h2 := hs.pb
    omega
  · intro n
    rw [List.take_append_eq_append_take, launches_append, pagesMade_append, closes_append]
    by_cases hn : n ≤ tr.length
    · have h0 : n - tr.length = 0 := by omega
      rw [h0]
      have c1 : launches ([] : List DriverCall) = 0 := rfl
      have c2 : pagesMade ([] : List DriverCall) = 0 := rfl
      have c3 : closes ([] : List DriverCall) = 0 := rfl
      simp only [List.take_zero, c1, c2, c3]
      have := hi.pre n
      omega
    · have htr : tr.take n = tr := List.take_of_length_le (by omega)
      rw [htr]
      have h1 := hs.lbPre (n - tr.length)
      have h2 := hs.pbPre (n - tr.length)
      have h3 := hi.lb
      have h4 := hi.pb
      constructor <;> omega

/-- A fresh wrapper with the empty trace satisfies the invariant. -/
theorem inv_init : Inv initState [] := by
  refine ⟨rfl, ?_, ?_, ?_⟩
  · exact Nat.le_refl 0
  · intro h
    cases h
  · intro n
    simp only [List.take_nil]
    exact ⟨Nat.zero_le 1, Nat.zero_le 1⟩

/-- Running any call list preserves the invariant. -/
theorem run_inv (calls : List ApiCall) :
    ∀ s tr, Inv s tr → Inv (run s calls).1 (tr ++ (run s calls).2) := by
  induction calls with
  | nil =>
    intro s tr hi
    simpa [run] using hi
  | cons c cs ih =>
    intro s tr hi
    unfold run
    dsimp only
    have h1 := inv_extend hi (step_segOK s c hi.pImp)
    have h2 := ih (step s c).1 (tr ++ (step s c).2) h1
    rw [List.append_assoc] at h2
    exact h2

/-- C6: along every run of wrapper calls from a fresh wrapper, every prefix of
the driver-call trace has at most one browser launch and at most one page
creation beyond the browsers closed, so at most one browser instance and one
page are ever outstanding; and calling `setup` with the browser already
initialized is a no-op: no driver call, no state change, normal return. -/
theorem session_lifecycle (calls : List ApiCall) (n : Nat) (e : SetupEnv) (s : BTState)
    (hb : s.browser = true) :
    launches ((run initState calls).2.take n) ≤
      closes ((run initState calls).2.take n) + 1 ∧
    pagesMade ((run initState calls).2.take n) ≤
      closes ((run initState calls).2.take n) + 1 ∧
    setup e s = ⟨.ok (), s, []⟩ := by
  have hinv := run_inv calls initState [] inv_init
  rw [List.nil_append] at hinv
  refine ⟨(hinv.pre n).1, (hinv.pre n).2, ?_⟩
  unfold setup
  rw [if_pos hb]

/-- Witness for `session_lifecycle`: a concrete run (setup, navigate, cleanup,
setup again) and the no-op of a re-entrant `setup`. -/
theorem session_lifecycle_witness :
    launches ((run initState [.setupC .ok,
        .navigateC (pyS "example.com") none ⟨.ok, .response 200, .ok⟩,
        .cleanupC ⟨false, none⟩, .setupC .ok]).2.take 6) ≤
      closes ((run initState [.setupC .ok,
        .navigateC (pyS "example.com") none ⟨.ok, .response 200, .ok⟩,
        .cleanupC ⟨false, none⟩, .setupC .ok]).2.take 6) + 1 ∧
    setup .ok pageReady = ⟨.ok (), pageReady, []⟩ :=
  ⟨(session_lifecycle [.setupC .ok,
      .navigateC (pyS "example.com") none ⟨.ok, .response 200, .ok⟩,
      .cleanupC ⟨false, none⟩, .setupC .ok] 6 .ok pageReady rfl).1,
   (session_lifecycle [] 0 .ok pageReady rfl).2.2⟩

end JRGPT
